import Mathlib

/-!
Shallow embedding of the revocation-registry-entry core of the indy-besu VDR
(files `src/vdr/src/contracts/anoncreds/types/revocation_registry_entry.rs` and
`src/vdr/src/contracts/anoncreds/types/revocation_registry_events.rs`),
together with theorems settling the specification claims about it.

Modelling conventions:
* Rust `Result<T, VdrError>` becomes `Except VdrError T`.
* Rust `String` becomes Lean `String`; `u32` / `u64` values become `Nat`
  (decoders check the numeric bounds explicitly where the Rust type enforced
  them).
* serde_json's concrete text / byte syntax is abstracted by the `Wire` type:
  a byte blob (or JSON text string) is represented either by the JSON value
  it parses to, or by a `notJson` token standing for bytes that are not valid
  JSON.  `serde_json::to_string` / `to_vec` produce the JSON value of the
  serialized record; `from_str` / `from_slice` consume a `Wire`.
* A Rust panic (from `.unwrap()` on an `Err`) is modelled by the `panicked`
  constructor of `RunResult`, distinct from returning an error.
-/

/-- JSON values, the abstract wire form produced and consumed by serde_json. -/
inductive Json where
  | null : Json
  | bool (b : Bool) : Json
  | num (n : Int) : Json
  | str (s : String) : Json
  | arr (elems : List Json) : Json
  | obj (fields : List (String × Json)) : Json

/-- A byte blob (or JSON text string): either bytes that parse as the JSON
value `j`, or bytes that are not valid JSON, identified by a raw token. -/
inductive Wire where
  | json (j : Json) : Wire
  | notJson (raw : String) : Wire

/-- The subset of `VdrError` variants used by the embedded code. -/
inductive VdrError where
  | invalidRevocationRegistryEntry (msg : String) : VdrError
  | contractInvalidResponseData (msg : String) : VdrError
  | contractInvalidInputData : VdrError
deriving DecidableEq

abbrev VdrResult (α : Type) := Except VdrError α

/-- Modelled from the spec: DID identifier parsing is out of scope, so a DID
is an opaque string wrapper, serialized as a JSON string, compared by string
equality. -/
structure DID where
  val : String
deriving DecidableEq

/-- Modelled from the spec: the registry definition identifier is an opaque
string wrapper, serialized as a JSON string. -/
structure RevocationRegistryDefinitionId where
  val : String
deriving DecidableEq

/-- Wrapper structure for the accumulator string
(`pub struct Accumulator(String)`). -/
structure Accumulator where
  val : String
deriving DecidableEq

namespace Accumulator

/-- Embeds `Accumulator::validate`: fails iff the wrapped string is empty. -/
def validate (a : Accumulator) : VdrResult Unit :=
  if a.val.isEmpty then
    .error (.invalidRevocationRegistryEntry ("Incorrect Accumulator: " ++ a.val))
  else
    .ok ()

end Accumulator

/-- Modelled from the spec: the status-list snapshot type
(`RevocationStatusList`, defined in `revocation_registry_delta.rs`, which is
not among the provided sources); field shapes follow the spec's data model
and the uses in the provided source.  `current_accumulator` is a raw string
(possibly empty), `revocation_list` a fixed-length index-state sequence. -/
structure RevocationStatusList where
  current_accumulator : String
  revocation_list : List Nat
  rev_reg_def_id : RevocationRegistryDefinitionId
  issuer_id : DID
  timestamp : Nat
deriving DecidableEq

/-- Embeds `RevocationRegistryEntryData` (current/prev accumulator plus
optional issued/revoked u32 index lists). -/
structure RevocationRegistryEntryData where
  current_accumulator : Accumulator
  prev_accumulator : Option Accumulator
  issued : Option (List Nat)
  revoked : Option (List Nat)
deriving DecidableEq

/-- Embeds `RevocationRegistryEntry`. -/
structure RevocationRegistryEntry where
  rev_reg_def_id : RevocationRegistryDefinitionId
  issuer_id : DID
  rev_reg_entry_data : RevocationRegistryEntryData
deriving DecidableEq

/-- The issuer-mismatch message built by `validate_with_status_list`. -/
def issuerMismatchMsg (entryIssuer slIssuer : DID) : String :=
  "issuer mismatch: entry issuer " ++ entryIssuer.val ++
    " != status list issuer " ++ slIssuer.val

/-- The accumulator-mismatch message built by `validate_with_ledger`. -/
def prevAccumMismatchMsg (ledgerVal localVal : String) : String :=
  "prev_accum mismatch: expected " ++ ledgerVal ++ ", found " ++ localVal

namespace RevocationRegistryEntry

/-- Embeds `RevocationRegistryEntry::validate`: validate the current
accumulator, then the previous accumulator when present. -/
def validate (e : RevocationRegistryEntry) : VdrResult Unit :=
  match e.rev_reg_entry_data.current_accumulator.validate with
  | .error er => .error er
  | .ok _ =>
    match e.rev_reg_entry_data.prev_accumulator with
    | some prev_acc =>
      match prev_acc.validate with
      | .error er => .error er
      | .ok _ => .ok ()
    | none => .ok ()

/-- Embeds `RevocationRegistryEntry::validate_with_ledger`: the four-way case
split on (local previous accumulator, ledger previous accumulator). -/
def validate_with_ledger (e : RevocationRegistryEntry)
    (prev_accum_from_ledger : Option Accumulator) : VdrResult Unit :=
  match e.rev_reg_entry_data.prev_accumulator, prev_accum_from_ledger with
  | some lcl, some ldg =>
    if lcl.val ≠ ldg.val then
      .error (.invalidRevocationRegistryEntry (prevAccumMismatchMsg ldg.val lcl.val))
    else
      .ok ()
  | none, some _ =>
    .error (.invalidRevocationRegistryEntry
      "prev_accum not provided locally, but exists on the ledger")
  | some _, none =>
    .error (.invalidRevocationRegistryEntry
      "prev_accum provided locally, but does not exist on the ledger")
  | none, none => .ok ()

/-- Embeds `RevocationRegistryEntry::validate_with_status_list`: local
validation, issuer consistency check, accumulator transformation (empty
string means absent), then ledger validation. -/
def validate_with_status_list (e : RevocationRegistryEntry)
    (status_list : Option RevocationStatusList) : VdrResult Unit :=
  match e.validate with
  | .error er => .error er
  | .ok _ =>
    match status_list with
    | some sl =>
      if e.issuer_id ≠ sl.issuer_id then
        .error (.invalidRevocationRegistryEntry
          (issuerMismatchMsg e.issuer_id sl.issuer_id))
      else
        e.validate_with_ledger
          (if sl.current_accumulator.isEmpty then none
           else some ⟨sl.current_accumulator⟩)
    | none => e.validate_with_ledger none

end RevocationRegistryEntry

/-! ## Codec layer

Serialization follows the serde derives on the source structs:
`RevocationRegistryEntry` and `RevocationRegistryEntryData` both carry
`#[serde(rename_all = "camelCase")]`; the explicit `rename` attributes
(`revRegDefId`, `issuerId`, `currentAccumulator`, `prevAccumulator`)
coincide with the camelCase renaming, and the un-renamed fields
`rev_reg_entry_data`, `issued`, `revoked` serialize under their camelCase
names `revRegEntryData`, `issued`, `revoked`.  `Option` fields serialize as
`null` when absent and may be omitted or `null` on input; unknown input
fields are ignored (serde default).  Duplicate-key objects are abstracted by
first-occurrence lookup. -/

/-- JSON encoding of an optional accumulator (serde: `None` becomes `null`,
`Some` the wrapped string, since `Accumulator` is a newtype over `String`). -/
def optAccumulatorToJson : Option Accumulator → Json
  | none => .null
  | some a => .str a.val

/-- JSON encoding of a u32 index list. -/
def u32ListToJson (xs : List Nat) : Json :=
  .arr (xs.map (fun n => Json.num (Int.ofNat n)))

/-- JSON encoding of an optional u32 index list. -/
def optU32ListToJson : Option (List Nat) → Json
  | none => .null
  | some xs => u32ListToJson xs

/-- Serde serialization of `RevocationRegistryEntryData`. -/
def RevocationRegistryEntryData.toJson (d : RevocationRegistryEntryData) : Json :=
  .obj [("currentAccumulator", .str d.current_accumulator.val),
        ("prevAccumulator", optAccumulatorToJson d.prev_accumulator),
        ("issued", optU32ListToJson d.issued),
        ("revoked", optU32ListToJson d.revoked)]

/-- Serde serialization of `RevocationRegistryEntry`. -/
def RevocationRegistryEntry.toJson (e : RevocationRegistryEntry) : Json :=
  .obj [("revRegDefId", .str e.rev_reg_def_id.val),
        ("issuerId", .str e.issuer_id.val),
        ("revRegEntryData", e.rev_reg_entry_data.toJson)]

/-- First-occurrence field lookup in a JSON object's field list. -/
def getField : List (String × Json) → String → Option Json
  | [], _ => none
  | (k, v) :: rest, name => if k = name then some v else getField rest name

/-- The field names of a JSON object (empty for non-objects). -/
def jsonKeys : Json → List String
  | .obj fields => fields.map (fun kv => kv.1)
  | _ => []

/-- Decode a JSON string. -/
def decodeString : Json → Except String String
  | .str s => .ok s
  | _ => .error "expected a string"

/-- Decode an optional accumulator field: missing or `null` is `none`. -/
def decodeOptAccumulator : Option Json → Except String (Option Accumulator)
  | none => .ok none
  | some .null => .ok none
  | some (.str s) => .ok (some ⟨s⟩)
  | some _ => .error "expected a string or null"

/-- Decode a u32: a JSON integer in `[0, 2^32)` (negative or oversized
numbers are rejected, as serde rejects them for the `u32` type). -/
def decodeU32 : Json → Except String Nat
  | .num (.ofNat m) =>
    if m < 4294967296 then .ok m else .error "number out of u32 range"
  | .num (.negSucc _) => .error "number out of u32 range"
  | _ => .error "expected a number"

/-- Decode a list of u32 values. -/
def decodeU32List : List Json → Except String (List Nat)
  | [] => .ok []
  | j :: rest =>
    match decodeU32 j with
    | .error msg => .error msg
    | .ok n =>
      match decodeU32List rest with
      | .error msg => .error msg
      | .ok ns => .ok (n :: ns)

/-- Decode an optional u32 list field: missing or `null` is `none`. -/
def decodeOptU32List : Option Json → Except String (Option (List Nat))
  | none => .ok none
  | some .null => .ok none
  | some (.arr xs) =>
    match decodeU32List xs with
    | .error msg => .error msg
    | .ok ns => .ok (some ns)
  | some _ => .error "expected an array or null"

/-- Serde deserialization of `RevocationRegistryEntryData`. -/
def RevocationRegistryEntryData.fromJson :
    Json → Except String RevocationRegistryEntryData
  | .obj fields =>
    match getField fields "currentAccumulator" with
    | none => .error "missing field currentAccumulator"
    | some jc =>
      match decodeString jc with
      | .error msg => .error msg
      | .ok cur =>
        match decodeOptAccumulator (getField fields "prevAccumulator") with
        | .error msg => .error msg
        | .ok prev =>
          match decodeOptU32List (getField fields "issued") with
          | .error msg => .error msg
          | .ok iss =>
            match decodeOptU32List (getField fields "revoked") with
            | .error msg => .error msg
            | .ok rev => .ok ⟨⟨cur⟩, prev, iss, rev⟩
  | _ => .error "expected an object"

/-- Serde deserialization of `RevocationRegistryEntry`. -/
def RevocationRegistryEntry.fromJson :
    Json → Except String RevocationRegistryEntry
  | .obj fields =>
    match getField fields "revRegDefId" with
    | none => .error "missing field revRegDefId"
    | some jd =>
      match decodeString jd with
      | .error msg => .error msg
      | .ok defId =>
        match getField fields "issuerId" with
        | none => .error "missing field issuerId"
        | some ji =>
          match decodeString ji with
          | .error msg => .error msg
          | .ok iss =>
            match getField fields "revRegEntryData" with
            | none => .error "missing field revRegEntryData"
            | some jdata =>
              match RevocationRegistryEntryData.fromJson jdata with
              | .error msg => .error msg
              | .ok d => .ok ⟨⟨defId⟩, ⟨iss⟩, d⟩
  | _ => .error "expected an object"

/-- The parse outcome of a wire blob: the JSON value when the bytes are valid
JSON, a parse diagnostic otherwise. -/
def parseWire : Wire → Except String Json
  | .json j => .ok j
  | .notJson raw => .error ("invalid JSON: " ++ raw)

/-- Embeds `RevocationRegistryEntry::to_string`
(`serde_json::to_string`, which cannot fail on this type). -/
def RevocationRegistryEntry.to_string (e : RevocationRegistryEntry) :
    VdrResult Wire :=
  .ok (.json e.toJson)

/-- Embeds `RevocationRegistryEntry::from_string`
(`serde_json::from_str` with the error wrapped in
`InvalidRevocationRegistryEntry`). -/
def RevocationRegistryEntry.from_string (value : Wire) :
    VdrResult RevocationRegistryEntry :=
  match (parseWire value).bind RevocationRegistryEntry.fromJson with
  | .ok e => .ok e
  | .error msg =>
    .error (.invalidRevocationRegistryEntry
      ("Unable to parse Revocation Registry Entry from JSON. Err: " ++ msg))

/-- Embeds `TryFrom<&Bytes> for RevocationRegistryEntry`
(`serde_json::from_slice` with the error wrapped in
`InvalidRevocationRegistryEntry`). -/
def bytesToRevocationRegistryEntry (value : Wire) :
    VdrResult RevocationRegistryEntry :=
  match (parseWire value).bind RevocationRegistryEntry.fromJson with
  | .ok e => .ok e
  | .error msg =>
    .error (.invalidRevocationRegistryEntry
      ("Unable to parse Revocation Registry Entry from the response. Err: " ++ msg))

/-- Contract-call parameter (only the byte-blob variant is used here). -/
inductive ContractParam where
  | bytes (w : Wire) : ContractParam

/-- Embeds `TryFrom<&RevocationRegistryEntry> for ContractParam`
(`serde_json::to_vec`: the JSON text's bytes verbatim). -/
def revocationRegistryEntryToContractParam (e : RevocationRegistryEntry) :
    VdrResult ContractParam :=
  .ok (.bytes (.json e.toJson))

/-! ## Event decoder -/

/-- Modelled from the spec: the positional typed fields a ledger log record
can hold (fixed-bytes, unsigned-integer, raw-bytes). -/
inductive EventField where
  | fixedBytes (b : List Nat) : EventField
  | uintField (n : Nat) : EventField
  | bytesField (w : Wire) : EventField

/-- Modelled from the spec: an opaque ledger log record exposing fallible
positional typed accessors (`ContractEvent`, defined outside the provided
sources). -/
structure ContractEvent where
  fields : List EventField

namespace ContractEvent

/-- Modelled from the spec: `get_fixed_bytes(index)` — fallible accessor,
failing (with an error naming the index) when the position is absent or not
a fixed-bytes field. -/
def get_fixed_bytes (ev : ContractEvent) (i : Nat) : VdrResult (List Nat) :=
  match ev.fields.get? i with
  | some (.fixedBytes b) => .ok b
  | _ =>
    .error (.contractInvalidResponseData
      ("Missing fixed-bytes event field at index " ++ toString i))

/-- Modelled from the spec: `get_uint(index)` — fallible accessor. -/
def get_uint (ev : ContractEvent) (i : Nat) : VdrResult Nat :=
  match ev.fields.get? i with
  | some (.uintField n) => .ok n
  | _ =>
    .error (.contractInvalidResponseData
      ("Missing uint event field at index " ++ toString i))

/-- Modelled from the spec: `get_bytes(index)` — fallible accessor. -/
def get_bytes (ev : ContractEvent) (i : Nat) : VdrResult Wire :=
  match ev.fields.get? i with
  | some (.bytesField w) => .ok w
  | _ =>
    .error (.contractInvalidResponseData
      ("Missing bytes event field at index " ++ toString i))

end ContractEvent

/-- Modelled from the spec: the parent block number
(`types::transaction::Block`, defined outside the provided sources): a 64-bit
block number whose conversion from the ledger's 256-bit unsigned integer is
fallible. -/
structure Block where
  val : Nat
deriving DecidableEq

/-- Modelled from the spec: `Block::try_from(Uint)`, failing when the ledger
value does not fit the block-number width. -/
def Block.tryFrom (n : Nat) : VdrResult Block :=
  if n < 18446744073709551616 then .ok ⟨n⟩
  else .error (.contractInvalidResponseData "block number out of range")

/-- Outcome of running a Rust computation that may also panic: `panicked`
models a process abort from `.unwrap()` on an `Err`, as distinct from
returning an error to the caller. -/
inductive RunResult (α : Type) where
  | ok (a : α) : RunResult α
  | err (e : VdrError) : RunResult α
  | panicked : RunResult α

/-- Embeds `RevRegEntryCreated`. -/
structure RevRegEntryCreated where
  revocation_registry_definition_id : List Nat
  timestamp : Nat
  parent_block_number : Block
  rev_reg_entry : RevocationRegistryEntry

/-- Embeds `TryFrom<ContractEvent> for RevRegEntryCreated`.  Positions 0, 1
and 3 propagate accessor failures with the `?` operator; position 2 calls
`.unwrap()` on both `get_uint(2)` and `Block::try_from`, so a failure there
is a panic, not a returned error. -/
def RevRegEntryCreated.tryFromEvent (log : ContractEvent) :
    RunResult RevRegEntryCreated :=
  match log.get_fixed_bytes 0 with
  | .error er => .err er
  | .ok revocation_registry_definition_id =>
    match log.get_uint 1 with
    | .error er => .err er
    | .ok timestamp =>
      match log.get_uint 2 with
      | .error _ => .panicked
      | .ok u =>
        match Block.tryFrom u with
        | .error _ => .panicked
        | .ok parent_block_number =>
          match log.get_bytes 3 with
          | .error er => .err er
          | .ok rev_reg_entry_tuple =>
            match bytesToRevocationRegistryEntry rev_reg_entry_tuple with
            | .error er => .err er
            | .ok rev_reg_entry =>
              .ok ⟨revocation_registry_definition_id, timestamp,
                   parent_block_number, rev_reg_entry⟩

/-! ## Auxiliary predicates and helper lemmas -/

/-- The string `needle` occurs contiguously inside the string `hay`. -/
def strIncludes (needle hay : String) : Prop :=
  ∃ pre post : String, hay = pre ++ needle ++ post

/-- The result is an issuer-mismatch failure (for some pair of issuers). -/
def isIssuerMismatchErr (r : VdrResult Unit) : Prop :=
  ∃ a b : DID, r = .error (.invalidRevocationRegistryEntry (issuerMismatchMsg a b))

theorem decodeU32_ofNat (n : Nat) (hn : n < 4294967296) :
    decodeU32 (Json.num (Int.ofNat n)) = .ok n := by
  simp only [decodeU32, if_pos hn]

theorem decodeU32List_map (xs : List Nat) (h : ∀ n ∈ xs, n < 4294967296) :
    decodeU32List (xs.map (fun n => Json.num (Int.ofNat n))) = .ok xs := by
  induction xs with
  | nil => rfl
  | cons n rest ih =>
    have hn : n < 4294967296 := h n (List.mem_cons_self n rest)
    have hrest := ih (fun m hm => h m (List.mem_cons_of_mem n hm))
    simp only [List.map_cons, decodeU32List, decodeU32_ofNat n hn, hrest]

theorem decodeOptAccumulator_roundtrip (p : Option Accumulator) :
    decodeOptAccumulator (some (optAccumulatorToJson p)) = .ok p := by
  cases p <;> rfl

theorem decodeOptU32List_roundtrip (o : Option (List Nat))
    (h : ∀ n ∈ o.getD [], n < 4294967296) :
    decodeOptU32List (some (optU32ListToJson o)) = .ok o := by
  cases o with
  | none => rfl
  | some xs =>
    simp only [optU32ListToJson, u32ListToJson, decodeOptU32List,
      decodeU32List_map xs h]

theorem data_fromJson_shape (cur : String) (p i r : Json) :
    RevocationRegistryEntryData.fromJson
      (.obj [("currentAccumulator", .str cur), ("prevAccumulator", p),
             ("issued", i), ("revoked", r)]) =
    (match decodeOptAccumulator (some p) with
     | .error msg => .error msg
     | .ok prev =>
       match decodeOptU32List (some i) with
       | .error msg => .error msg
       | .ok iss =>
         match decodeOptU32List (some r) with
         | .error msg => .error msg
         | .ok rev => .ok ⟨⟨cur⟩, prev, iss, rev⟩) := rfl

theorem data_roundtrip (d : RevocationRegistryEntryData)
    (hi : ∀ n ∈ d.issued.getD [], n < 4294967296)
    (hr : ∀ n ∈ d.revoked.getD [], n < 4294967296) :
    RevocationRegistryEntryData.fromJson d.toJson = .ok d := by
  obtain ⟨⟨cur⟩, prev, iss, rev⟩ := d
  simp only [RevocationRegistryEntryData.toJson, data_fromJson_shape,
    decodeOptAccumulator_roundtrip, decodeOptU32List_roundtrip iss hi,
    decodeOptU32List_roundtrip rev hr]

theorem entry_fromJson_shape (defId iss : String) (jd : Json) :
    RevocationRegistryEntry.fromJson
      (.obj [("revRegDefId", .str defId), ("issuerId", .str iss),
             ("revRegEntryData", jd)]) =
    (match RevocationRegistryEntryData.fromJson jd with
     | .error msg => .error msg
     | .ok d => .ok ⟨⟨defId⟩, ⟨iss⟩, d⟩) := rfl

theorem entry_roundtrip (e : RevocationRegistryEntry)
    (hi : ∀ n ∈ e.rev_reg_entry_data.issued.getD [], n < 4294967296)
    (hr : ∀ n ∈ e.rev_reg_entry_data.revoked.getD [], n < 4294967296) :
    RevocationRegistryEntry.fromJson e.toJson = .ok e := by
  obtain ⟨⟨defId⟩, ⟨iss⟩, d⟩ := e
  simp only [RevocationRegistryEntry.toJson, entry_fromJson_shape,
    data_roundtrip d hi hr]

theorem from_string_json (j : Json) :
    RevocationRegistryEntry.from_string (.json j) =
    (match RevocationRegistryEntry.fromJson j with
     | .ok e => .ok e
     | .error msg =>
       .error (.invalidRevocationRegistryEntry
         ("Unable to parse Revocation Registry Entry from JSON. Err: " ++ msg))) := rfl

theorem bytesToEntry_json (j : Json) :
    bytesToRevocationRegistryEntry (.json j) =
    (match RevocationRegistryEntry.fromJson j with
     | .ok e => .ok e
     | .error msg =>
       .error (.invalidRevocationRegistryEntry
         ("Unable to parse Revocation Registry Entry from the response. Err: " ++ msg))) := rfl

theorem headP_ne_issuerMismatchMsg {s : String}
    (hs : s.data.head? = some 'p') (a b : DID) : s ≠ issuerMismatchMsg a b := by
  intro h
  have h2 : (issuerMismatchMsg a b).data.head? = some 'i' := rfl
  rw [h, h2] at hs
  exact absurd (Option.some.inj hs) (by decide)

theorem validate_with_ledger_not_issuerMismatch (e : RevocationRegistryEntry)
    (lp : Option Accumulator) :
    ¬ isIssuerMismatchErr (e.validate_with_ledger lp) := by
  rintro ⟨a, b, hEq⟩
  cases hp : e.rev_reg_entry_data.prev_accumulator with
  | some lcl =>
    cases lp with
    | some ldg =>
      simp only [RevocationRegistryEntry.validate_with_ledger, hp] at hEq
      by_cases hv : lcl.val ≠ ldg.val
      · rw [if_pos hv] at hEq
        have hmsg := (VdrError.invalidRevocationRegistryEntry.inj (Except.error.inj hEq))
        exact headP_ne_issuerMismatchMsg (s := prevAccumMismatchMsg ldg.val lcl.val) rfl a b hmsg
      · rw [if_neg hv] at hEq
        exact Except.noConfusion hEq
    | none =>
      simp only [RevocationRegistryEntry.validate_with_ledger, hp] at hEq
      have hmsg := (VdrError.invalidRevocationRegistryEntry.inj (Except.error.inj hEq))
      exact headP_ne_issuerMismatchMsg
        (s := "prev_accum provided locally, but does not exist on the ledger") rfl a b hmsg
  | none =>
    cases lp with
    | some ldg =>
      simp only [RevocationRegistryEntry.validate_with_ledger, hp] at hEq
      have hmsg := (VdrError.invalidRevocationRegistryEntry.inj (Except.error.inj hEq))
      exact headP_ne_issuerMismatchMsg
        (s := "prev_accum not provided locally, but exists on the ledger") rfl a b hmsg
    | none =>
      simp only [RevocationRegistryEntry.validate_with_ledger, hp] at hEq
      exact Except.noConfusion hEq

/-! ## Claim theorems -/

/-- C1 (counterexample): the claim "validating against an absent status list
returns exactly the same result as local validation alone; an entry whose
previousAccumulator is present and non-empty passes when no status list is
supplied" is false: this entry passes local validation but
`validate_with_status_list` with no status list rejects it. -/
theorem claim_C1_counterexample :
    RevocationRegistryEntry.validate
        ⟨⟨"rd"⟩, ⟨"did"⟩, ⟨⟨"cur"⟩, some ⟨"localPrev"⟩, none, none⟩⟩ = .ok () ∧
    RevocationRegistryEntry.validate_with_status_list
        ⟨⟨"rd"⟩, ⟨"did"⟩, ⟨⟨"cur"⟩, some ⟨"localPrev"⟩, none, none⟩⟩ none =
      .error (.invalidRevocationRegistryEntry
        "prev_accum provided locally, but does not exist on the ledger") :=
  ⟨rfl, rfl⟩

/-- C1 (amended): with no status list supplied, `validate_with_status_list`
runs local validation and then still runs ledger-pair validation with an
absent ledger previous accumulator; it coincides with local validation
exactly when the entry's previousAccumulator is absent, and an entry with a
present previousAccumulator that passes local validation fails with the
unexpected-local-previous error. -/
theorem claim_C1 (e : RevocationRegistryEntry) :
    (e.rev_reg_entry_data.prev_accumulator = none →
      e.validate_with_status_list none = e.validate) ∧
    (∀ p, e.rev_reg_entry_data.prev_accumulator = some p →
      e.validate = .ok () →
      e.validate_with_status_list none =
        .error (.invalidRevocationRegistryEntry
          "prev_accum provided locally, but does not exist on the ledger")) := by
  constructor
  · intro hp
    cases hv : e.validate with
    | error er =>
      simp only [RevocationRegistryEntry.validate_with_status_list, hv]
    | ok u =>
      cases u
      simp only [RevocationRegistryEntry.validate_with_status_list, hv,
        RevocationRegistryEntry.validate_with_ledger, hp]
  · intro p hp hv
    simp only [RevocationRegistryEntry.validate_with_status_list, hv,
      RevocationRegistryEntry.validate_with_ledger, hp]

/-- C1 (witness): the amended claim at concrete entries. -/
theorem claim_C1_witness :
    RevocationRegistryEntry.validate_with_status_list
        ⟨⟨"rd"⟩, ⟨"did"⟩, ⟨⟨"cur"⟩, none, none, none⟩⟩ none =
      RevocationRegistryEntry.validate
        ⟨⟨"rd"⟩, ⟨"did"⟩, ⟨⟨"cur"⟩, none, none, none⟩⟩ ∧
    RevocationRegistryEntry.validate_with_status_list
        ⟨⟨"rd"⟩, ⟨"did"⟩, ⟨⟨"cur"⟩, some ⟨"p1"⟩, none, none⟩⟩ none =
      .error (.invalidRevocationRegistryEntry
        "prev_accum provided locally, but does not exist on the ledger") :=
  ⟨(claim_C1 ⟨⟨"rd"⟩, ⟨"did"⟩, ⟨⟨"cur"⟩, none, none, none⟩⟩).1 rfl,
   (claim_C1 ⟨⟨"rd"⟩, ⟨"did"⟩, ⟨⟨"cur"⟩, some ⟨"p1"⟩, none, none⟩⟩).2 ⟨"p1"⟩ rfl rfl⟩

/-- C2: ledger-pair validation follows the exhaustive four-way case split on
(local previousAccumulator, ledger previous accumulator): both present and
equal passes; both present and unequal fails with the accumulator-mismatch
error whose message includes both the ledger value and the local value;
local absent with ledger present fails with the missing-local-previous
error; local present with ledger absent fails with the
unexpected-local-previous error; both absent passes. -/
theorem claim_C2 (e : RevocationRegistryEntry) (lp : Option Accumulator) :
    (∀ lcl ldg, e.rev_reg_entry_data.prev_accumulator = some lcl →
      lp = some ldg →
      (lcl.val = ldg.val → e.validate_with_ledger lp = .ok ()) ∧
      (lcl.val ≠ ldg.val →
        e.validate_with_ledger lp =
          .error (.invalidRevocationRegistryEntry
            (prevAccumMismatchMsg ldg.val lcl.val)) ∧
        strIncludes ldg.val (prevAccumMismatchMsg ldg.val lcl.val) ∧
        strIncludes lcl.val (prevAccumMismatchMsg ldg.val lcl.val))) ∧
    (∀ ldg, e.rev_reg_entry_data.prev_accumulator = none → lp = some ldg →
      e.validate_with_ledger lp =
        .error (.invalidRevocationRegistryEntry
          "prev_accum not provided locally, but exists on the ledger")) ∧
    (∀ lcl, e.rev_reg_entry_data.prev_accumulator = some lcl → lp = none →
      e.validate_with_ledger lp =
        .error (.invalidRevocationRegistryEntry
          "prev_accum provided locally, but does not exist on the ledger")) ∧
    (e.rev_reg_entry_data.prev_accumulator = none → lp = none →
      e.validate_with_ledger lp = .ok ()) := by
  refine ⟨?_, ?_, ?_, ?_⟩
  · intro lcl ldg hp hlp
    subst hlp
    constructor
    · intro hv
      simp only [RevocationRegistryEntry.validate_with_ledger, hp,
        if_neg (not_not_intro hv)]
    · intro hv
      refine ⟨by simp only [RevocationRegistryEntry.validate_with_ledger, hp, if_pos hv], ?_, ?_⟩
      · exact ⟨"prev_accum mismatch: expected ", ", found " ++ lcl.val,
          String.append_assoc _ ", found " lcl.val⟩
      · exact ⟨"prev_accum mismatch: expected " ++ ldg.val ++ ", found ", "",
          (String.append_empty _).symm⟩
  · intro ldg hp hlp
    subst hlp
    simp only [RevocationRegistryEntry.validate_with_ledger, hp]
  · intro lcl hp hlp
    subst hlp
    simp only [RevocationRegistryEntry.validate_with_ledger, hp]
  · intro hp hlp
    subst hlp
    simp only [RevocationRegistryEntry.validate_with_ledger, hp]

/-- C2 (witness): the mismatch case at concrete values, with the message
containing both accumulator values. -/
theorem claim_C2_witness :
    RevocationRegistryEntry.validate_with_ledger
        ⟨⟨"rd"⟩, ⟨"did"⟩, ⟨⟨"cur"⟩, some ⟨"localPrev"⟩, none, none⟩⟩
        (some ⟨"ledgerPrev"⟩) =
      .error (.invalidRevocationRegistryEntry
        (prevAccumMismatchMsg "ledgerPrev" "localPrev")) ∧
    strIncludes "ledgerPrev" (prevAccumMismatchMsg "ledgerPrev" "localPrev") ∧
    strIncludes "localPrev" (prevAccumMismatchMsg "ledgerPrev" "localPrev") :=
  ((claim_C2 ⟨⟨"rd"⟩, ⟨"did"⟩, ⟨⟨"cur"⟩, some ⟨"localPrev"⟩, none, none⟩⟩
      (some ⟨"ledgerPrev"⟩)).1 ⟨"localPrev"⟩ ⟨"ledgerPrev"⟩ rfl rfl).2 (by decide)

/-- C3: on a log record whose position-2 field is not obtainable as an
unsigned integer (here it holds fixed-bytes), decoding the creation event
panics (the source calls `.unwrap()` on `get_uint(2)`) instead of returning
an error as the claim requires. -/
theorem claim_C3_panic :
    RevRegEntryCreated.tryFromEvent
        ⟨[.fixedBytes [1], .uintField 7, .fixedBytes [2],
          .bytesField (.json (.str "x"))]⟩ = .panicked := rfl

/-- C4 (counterexample): the claim that the serialized entry uses the field
name rev_reg_entry_data is false: serde's camelCase renaming makes the
third field name revRegEntryData, so rev_reg_entry_data is not among the
keys of a serialized entry. -/
theorem claim_C4_counterexample :
    "rev_reg_entry_data" ∉
      jsonKeys (RevocationRegistryEntry.toJson
        ⟨⟨"rd"⟩, ⟨"did"⟩, ⟨⟨"cur"⟩, none, none, none⟩⟩) := by decide

/-- C4 (amended): the JSON serialization of every entry uses exactly the
field names revRegDefId, issuerId and revRegEntryData, and the nested
entry-data object uses exactly currentAccumulator, prevAccumulator, issued,
revoked. -/
theorem claim_C4 (e : RevocationRegistryEntry) :
    jsonKeys e.toJson = ["revRegDefId", "issuerId", "revRegEntryData"] ∧
    jsonKeys e.rev_reg_entry_data.toJson =
      ["currentAccumulator", "prevAccumulator", "issued", "revoked"] :=
  ⟨rfl, rfl⟩

/-- C5: for every entry whose index lists fit in u32 (as the Rust types
guarantee), decoding the JSON encoding yields the entry back, decoding the
binary contract-parameter encoding yields the entry back, and the binary
encoding's payload is verbatim the JSON text encoding. -/
theorem claim_C5 (e : RevocationRegistryEntry)
    (hi : ∀ n ∈ e.rev_reg_entry_data.issued.getD [], n < 4294967296)
    (hr : ∀ n ∈ e.rev_reg_entry_data.revoked.getD [], n < 4294967296) :
    e.to_string = .ok (.json e.toJson) ∧
    RevocationRegistryEntry.from_string (.json e.toJson) = .ok e ∧
    revocationRegistryEntryToContractParam e = .ok (.bytes (.json e.toJson)) ∧
    bytesToRevocationRegistryEntry (.json e.toJson) = .ok e := by
  refine ⟨rfl, ?_, rfl, ?_⟩
  · rw [from_string_json, entry_roundtrip e hi hr]
  · rw [bytesToEntry_json, entry_roundtrip e hi hr]

/-- C5 (witness): the round trip at a concrete entry. -/
theorem claim_C5_witness :
    RevocationRegistryEntry.from_string
        (.json (RevocationRegistryEntry.toJson
          ⟨⟨"rd"⟩, ⟨"did"⟩, ⟨⟨"cur"⟩, some ⟨"p1"⟩, some [1, 2], some [3]⟩⟩)) =
      .ok ⟨⟨"rd"⟩, ⟨"did"⟩, ⟨⟨"cur"⟩, some ⟨"p1"⟩, some [1, 2], some [3]⟩⟩ ∧
    bytesToRevocationRegistryEntry
        (.json (RevocationRegistryEntry.toJson
          ⟨⟨"rd"⟩, ⟨"did"⟩, ⟨⟨"cur"⟩, some ⟨"p1"⟩, some [1, 2], some [3]⟩⟩)) =
      .ok ⟨⟨"rd"⟩, ⟨"did"⟩, ⟨⟨"cur"⟩, some ⟨"p1"⟩, some [1, 2], some [3]⟩⟩ :=
  ⟨(claim_C5 ⟨⟨"rd"⟩, ⟨"did"⟩, ⟨⟨"cur"⟩, some ⟨"p1"⟩, some [1, 2], some [3]⟩⟩
      (by decide) (by decide)).2.1,
   (claim_C5 ⟨⟨"rd"⟩, ⟨"did"⟩, ⟨⟨"cur"⟩, some ⟨"p1"⟩, some [1, 2], some [3]⟩⟩
      (by decide) (by decide)).2.2.2⟩

/-- C6: when a status list is supplied and local validation passes, the
check fails with an issuer-mismatch error (naming both issuer identifiers)
if and only if the status list's issuer differs from the entry's issuer;
otherwise the ledger previous accumulator is derived from the status list's
currentAccumulator (empty string means absent) and ledger-pair validation is
applied to it, its result propagated unchanged. -/
theorem claim_C6 (e : RevocationRegistryEntry) (sl : RevocationStatusList)
    (h : e.validate = .ok ()) :
    (isIssuerMismatchErr (e.validate_with_status_list (some sl)) ↔
      e.issuer_id ≠ sl.issuer_id) ∧
    (e.issuer_id ≠ sl.issuer_id →
      e.validate_with_status_list (some sl) =
        .error (.invalidRevocationRegistryEntry
          (issuerMismatchMsg e.issuer_id sl.issuer_id))) ∧
    (e.issuer_id = sl.issuer_id →
      e.validate_with_status_list (some sl) =
        e.validate_with_ledger
          (if sl.current_accumulator.isEmpty then none
           else some ⟨sl.current_accumulator⟩)) := by
  by_cases hiss : e.issuer_id = sl.issuer_id
  · have hres : e.validate_with_status_list (some sl) =
        e.validate_with_ledger
          (if sl.current_accumulator.isEmpty then none
           else some ⟨sl.current_accumulator⟩) := by
      simp only [RevocationRegistryEntry.validate_with_status_list, h,
        if_neg (not_not_intro hiss)]
    refine ⟨?_, fun hne => absurd hiss hne, fun _ => hres⟩
    rw [hres]
    constructor
    · intro hmm
      exact absurd hmm (validate_with_ledger_not_issuerMismatch e _)
    · intro hne
      exact absurd hiss hne
  · have hres : e.validate_with_status_list (some sl) =
        .error (.invalidRevocationRegistryEntry
          (issuerMismatchMsg e.issuer_id sl.issuer_id)) := by
      simp only [RevocationRegistryEntry.validate_with_status_list, h,
        if_pos hiss]
    refine ⟨?_, fun _ => hres, fun heq => absurd heq hiss⟩
    rw [hres]
    exact ⟨fun _ => hiss, fun _ => ⟨e.issuer_id, sl.issuer_id, rfl⟩⟩

/-- C6 (witness): at concrete values, matching issuers reduce the check to
ledger-pair validation against the derived accumulator, and differing
issuers produce the issuer-mismatch error naming both identifiers. -/
theorem claim_C6_witness :
    RevocationRegistryEntry.validate_with_status_list
        ⟨⟨"rd"⟩, ⟨"did:a"⟩, ⟨⟨"123"⟩, some ⟨"123"⟩, none, none⟩⟩
        (some ⟨"123", [], ⟨"rd"⟩, ⟨"did:a"⟩, 0⟩) =
      RevocationRegistryEntry.validate_with_ledger
        ⟨⟨"rd"⟩, ⟨"did:a"⟩, ⟨⟨"123"⟩, some ⟨"123"⟩, none, none⟩⟩
        (if ("123" : String).isEmpty then none else some ⟨"123"⟩) ∧
    RevocationRegistryEntry.validate_with_status_list
        ⟨⟨"rd"⟩, ⟨"did:a"⟩, ⟨⟨"123"⟩, some ⟨"123"⟩, none, none⟩⟩
        (some ⟨"123", [], ⟨"rd"⟩, ⟨"did:b"⟩, 0⟩) =
      .error (.invalidRevocationRegistryEntry
        (issuerMismatchMsg ⟨"did:a"⟩ ⟨"did:b"⟩)) :=
  ⟨(claim_C6 ⟨⟨"rd"⟩, ⟨"did:a"⟩, ⟨⟨"123"⟩, some ⟨"123"⟩, none, none⟩⟩
      ⟨"123", [], ⟨"rd"⟩, ⟨"did:a"⟩, 0⟩ rfl).2.2 rfl,
   (claim_C6 ⟨⟨"rd"⟩, ⟨"did:a"⟩, ⟨⟨"123"⟩, some ⟨"123"⟩, none, none⟩⟩
      ⟨"123", [], ⟨"rd"⟩, ⟨"did:b"⟩, 0⟩ rfl).2.1 (by decide)⟩

/-- C7: an accumulator value validates successfully iff its string is
non-empty, failing with the invalid-accumulator error on the empty string;
and local entry validation succeeds iff currentAccumulator is non-empty and
any present previousAccumulator is non-empty, failing on the first empty
value with current checked before previous. -/
theorem claim_C7 :
    (∀ a : Accumulator,
      (a.validate = .ok () ↔ a.val ≠ "") ∧
      (a.val = "" → a.validate =
        .error (.invalidRevocationRegistryEntry
          ("Incorrect Accumulator: " ++ a.val)))) ∧
    (∀ e : RevocationRegistryEntry,
      (e.validate = .ok () ↔
        (e.rev_reg_entry_data.current_accumulator.val ≠ "" ∧
         ∀ p, e.rev_reg_entry_data.prev_accumulator = some p → p.val ≠ "")) ∧
      (e.rev_reg_entry_data.current_accumulator.val = "" →
        e.validate = .error (.invalidRevocationRegistryEntry
          ("Incorrect Accumulator: " ++
            e.rev_reg_entry_data.current_accumulator.val))) ∧
      (∀ p, e.rev_reg_entry_data.current_accumulator.val ≠ "" →
        e.rev_reg_entry_data.prev_accumulator = some p → p.val = "" →
        e.validate = .error (.invalidRevocationRegistryEntry
          ("Incorrect Accumulator: " ++ p.val)))) := by
  have hacc : ∀ a : Accumulator,
      (a.validate = .ok () ↔ a.val ≠ "") ∧
      (a.val = "" → a.validate =
        .error (.invalidRevocationRegistryEntry
          ("Incorrect Accumulator: " ++ a.val))) := by
    intro a
    by_cases hv : a.val = ""
    · have hemp : a.val.isEmpty = true := by
        rw [String.isEmpty_iff]
        exact hv
      constructor
      · rw [Accumulator.validate, if_pos hemp]
        simp [hv]
      · intro _
        rw [Accumulator.validate, if_pos hemp]
    · have hemp : a.val.isEmpty = false := by
        rw [Bool.eq_false_iff]
        intro hh
        exact hv ((String.isEmpty_iff a.val).mp hh)
      constructor
      · rw [Accumulator.validate, hemp]
        simp [hv]
      · intro hvv
        exact absurd hvv hv
  refine ⟨hacc, ?_⟩
  intro e
  by_cases hc : e.rev_reg_entry_data.current_accumulator.val = ""
  · have hcv := (hacc e.rev_reg_entry_data.current_accumulator).2 hc
    have hval : e.validate = .error (.invalidRevocationRegistryEntry
        ("Incorrect Accumulator: " ++
          e.rev_reg_entry_data.current_accumulator.val)) := by
      simp only [RevocationRegistryEntry.validate, hcv]
    refine ⟨?_, fun _ => hval, fun p hcne _ _ => absurd hc hcne⟩
    rw [hval]
    constructor
    · intro hh
      exact Except.noConfusion hh
    · intro hh
      exact absurd hc hh.1
  · have hcv : e.rev_reg_entry_data.current_accumulator.validate = .ok () :=
      (hacc e.rev_reg_entry_data.current_accumulator).1.mpr hc
    cases hp : e.rev_reg_entry_data.prev_accumulator with
    | none =>
      have hval : e.validate = .ok () := by
        simp only [RevocationRegistryEntry.validate, hcv, hp]
      refine ⟨?_, fun hcc => absurd hcc hc, fun p _ hpp _ =>
        Option.noConfusion hpp⟩
      rw [hval]
      constructor
      · intro _
        exact ⟨hc, fun p hpp => Option.noConfusion hpp⟩
      · intro _
        rfl
    | some q =>
      by_cases hq : q.val = ""
      · have hqv := (hacc q).2 hq
        have hval : e.validate = .error (.invalidRevocationRegistryEntry
            ("Incorrect Accumulator: " ++ q.val)) := by
          simp only [RevocationRegistryEntry.validate, hcv, hp, hqv]
        refine ⟨?_, fun hcc => absurd hcc hc, ?_⟩
        · rw [hval]
          constructor
          · intro hh
            exact Except.noConfusion hh
          · intro hh
            exact absurd hq (hh.2 q rfl)
        · intro p _ hpp hpe
          have hpq : q = p := Option.some.inj hpp
          rw [← hpq]
          exact hval
      · have hqv : q.validate = .ok () := (hacc q).1.mpr hq
        have hval : e.validate = .ok () := by
          simp only [RevocationRegistryEntry.validate, hcv, hp, hqv]
        refine ⟨?_, fun hcc => absurd hcc hc, ?_⟩
        · rw [hval]
          constructor
          · intro _
            refine ⟨hc, fun p hpp => ?_⟩
            have hpq : q = p := Option.some.inj hpp
            rw [← hpq]
            exact hq
          · intro _
            rfl
        · intro p _ hpp hpe
          have hpq : q = p := Option.some.inj hpp
          rw [← hpq] at hpe
          exact absurd hpe hq

/-- C7 (witness): the empty accumulator fails and a non-empty one passes. -/
theorem claim_C7_witness :
    Accumulator.validate ⟨""⟩ =
      .error (.invalidRevocationRegistryEntry "Incorrect Accumulator: ") ∧
    Accumulator.validate ⟨"valid_acc"⟩ = .ok () :=
  ⟨(claim_C7.1 ⟨""⟩).2 rfl, (claim_C7.1 ⟨"valid_acc"⟩).1.mpr (by decide)⟩

/-- C8 (counterexample): for a log record whose position-3 bytes are not
valid JSON, decoding fails with the codec's serialization error propagated
unchanged, whose message does not reference field index 3 (it contains no
character 3 at all), refuting the claim that the error references field
index 3. -/
theorem claim_C8_counterexample :
    RevRegEntryCreated.tryFromEvent
        ⟨[.fixedBytes [1], .uintField 7, .uintField 9,
          .bytesField (.notJson "xx")]⟩ =
      .err (.invalidRevocationRegistryEntry
        "Unable to parse Revocation Registry Entry from the response. Err: invalid JSON: xx") ∧
    ¬ ('3' ∈ ("Unable to parse Revocation Registry Entry from the response. Err: invalid JSON: xx").data) :=
  ⟨rfl, by decide⟩

/-- C8 (amended): for every log record whose positions 0 to 2 decode
successfully and whose position-3 bytes are not valid JSON, decoding the
creation event fails with the nested serialization error (the codec's parse
failure wrapped in the invalid-entry error) propagated unchanged, without
naming field index 3. -/
theorem claim_C8 (ev : ContractEvent) (fb : List Nat) (ts bn : Nat)
    (raw : String)
    (h0 : ev.get_fixed_bytes 0 = .ok fb) (h1 : ev.get_uint 1 = .ok ts)
    (h2 : ev.get_uint 2 = .ok bn) (hbn : bn < 18446744073709551616)
    (h3 : ev.get_bytes 3 = .ok (.notJson raw)) :
    RevRegEntryCreated.tryFromEvent ev =
      .err (.invalidRevocationRegistryEntry
        ("Unable to parse Revocation Registry Entry from the response. Err: invalid JSON: "
          ++ raw)) := by
  simp only [RevRegEntryCreated.tryFromEvent, h0, h1, h2, Block.tryFrom,
    if_pos hbn, h3]
  rfl

/-- C8 (witness): the amended claim at a concrete log record. -/
theorem claim_C8_witness :
    RevRegEntryCreated.tryFromEvent
        ⟨[.fixedBytes [1], .uintField 7, .uintField 9,
          .bytesField (.notJson "xy")]⟩ =
      .err (.invalidRevocationRegistryEntry
        ("Unable to parse Revocation Registry Entry from the response. Err: invalid JSON: "
          ++ "xy")) :=
  claim_C8 ⟨[.fixedBytes [1], .uintField 7, .uintField 9,
    .bytesField (.notJson "xy")]⟩ [1] 7 9 "xy" rfl rfl rfl (by decide) rfl

/-- C9: decoding does not establish the non-empty accumulator invariant:
this well-formed JSON input with an empty currentAccumulator is accepted by
both the JSON decoder and the binary decoder, yielding an entry on which
local validation fails. -/
theorem claim_C9 :
    RevocationRegistryEntry.from_string
        (.json (.obj [("revRegDefId", .str "rd"), ("issuerId", .str "is"),
          ("revRegEntryData", .obj [("currentAccumulator", .str "")])])) =
      .ok ⟨⟨"rd"⟩, ⟨"is"⟩, ⟨⟨""⟩, none, none, none⟩⟩ ∧
    bytesToRevocationRegistryEntry
        (.json (.obj [("revRegDefId", .str "rd"), ("issuerId", .str "is"),
          ("revRegEntryData", .obj [("currentAccumulator", .str "")])])) =
      .ok ⟨⟨"rd"⟩, ⟨"is"⟩, ⟨⟨""⟩, none, none, none⟩⟩ ∧
    RevocationRegistryEntry.validate ⟨⟨"rd"⟩, ⟨"is"⟩, ⟨⟨""⟩, none, none, none⟩⟩ =
      .error (.invalidRevocationRegistryEntry "Incorrect Accumulator: ") :=
  ⟨rfl, rfl, rfl⟩

/-- C10: a JSON entry object that omits the prevAccumulator, issued or
revoked fields still decodes successfully, each omitted field mapping to
absence in the structured record. -/
theorem claim_C10 (rd is ac pv : String) :
    RevocationRegistryEntry.from_string
        (.json (.obj [("revRegDefId", .str rd), ("issuerId", .str is),
          ("revRegEntryData", .obj [("currentAccumulator", .str ac)])])) =
      .ok ⟨⟨rd⟩, ⟨is⟩, ⟨⟨ac⟩, none, none, none⟩⟩ ∧
    RevocationRegistryEntry.from_string
        (.json (.obj [("revRegDefId", .str rd), ("issuerId", .str is),
          ("revRegEntryData", .obj [("currentAccumulator", .str ac),
            ("prevAccumulator", .str pv)])])) =
      .ok ⟨⟨rd⟩, ⟨is⟩, ⟨⟨ac⟩, some ⟨pv⟩, none, none⟩⟩ ∧
    RevocationRegistryEntry.from_string
        (.json (.obj [("revRegDefId", .str rd), ("issuerId", .str is),
          ("revRegEntryData", .obj [("currentAccumulator", .str ac),
            ("issued", .arr [.num 1, .num 2]),
            ("revoked", .arr [.num 3])])])) =
      .ok ⟨⟨rd⟩, ⟨is⟩, ⟨⟨ac⟩, none, some [1, 2], some [3]⟩⟩ :=
  ⟨rfl, rfl, rfl⟩
